import Mathlib

/-!
# Verification of the kubefwd forward-supervision core

This file is a shallow embedding of the forward-supervision subsystem of the
kubefwd repository (files `portforward.go`, `proxypod.go`, `sqltap.go`,
`port_utils.go`, `config.go`), together with theorems settling the frozen
claims about it.

Modelling conventions:
* Go machine integers (`int`) are modelled as `Int`; counters which are
  provably non-negative in the source (`retryCount`) are modelled as `Nat`
  and cast where the source compares them against an `Int` field.
* Every call across the OS boundary (spawning a process with `exec`,
  `cmd.Wait()`, `lsof`, `kubectl run` / `delete` / `get`, `time.Sleep`) is
  abstracted: its outcome is passed in as an explicit environment value and
  the call itself is recorded in a trace of `Action`s that the function
  returns alongside the new state.  This makes claims of the form "does not
  spawn a subprocess" or "sleeps the backoff delay" directly statable.
* Go-exported (capitalised) struct fields are written with a lower-case
  first letter; the Go field `namespace` is written `nspace` because
  `namespace` is a Lean keyword.
* Go maps (`map[string]int`) are modelled as association lists with
  insert-or-replace update and first-match lookup.
* `fmt.Sprintf` string construction is reproduced with `toString` and
  string append; `%.0f` applied to the (integral) backoff value prints it
  without decimals, which coincides with `toString` on `Nat`.
-/

namespace Kubefwd

/-- The mutex guarding each supervisor serialises `Start`/`Stop`/`monitor`;
the embedding therefore models each critical section as one atomic state
transformation.  External actions performed inside or between the critical
sections are recorded in a trace. -/
inductive Action where
  /-- A forwarding subprocess was spawned successfully (`cmd.Start()`).
  The payload is the literal command line. -/
  | spawnProcess (cmdString : String)
  /-- The cancellation handle of the current subprocess was invoked. -/
  | cancelProcess
  /-- Model of `time.Sleep` of a whole number of seconds. -/
  | sleepSeconds (n : Nat)
  /-- Model of `time.Sleep` of a number of milliseconds. -/
  | sleepMs (n : Nat)
  /-- Model of `deletePodUnsafe`: best-effort deletion of the shared proxy pod. -/
  | deletePod
  /-- A `kubectl run` creation attempt for the shared proxy pod. -/
  | createPod
  /-- The sql-tapd subprocess was spawned successfully. -/
  | tapSpawn
  deriving DecidableEq, Repr

/-- Model of `PortForwardStatus` (portforward.go): the four lifecycle states.
The Go constants `StatusStopped` .. `StatusError` become constructors. -/
inductive PortForwardStatus where
  | StatusStopped
  | StatusStarting
  | StatusRunning
  | StatusError
  deriving DecidableEq, Repr

/-- Model of `ProxyPodStatus` (proxypod.go). -/
inductive ProxyPodStatus where
  | ProxyPodStatusNotCreated
  | ProxyPodStatusCreating
  | ProxyPodStatusReady
  | ProxyPodStatusError
  deriving DecidableEq, Repr

/-- Model of `PortStatus` (port_utils.go). -/
inductive PortStatus where
  | PortStatusFree
  | PortStatusKubefwd
  | PortStatusExternal
  deriving DecidableEq, Repr

/-- Model of `Service` (config.go): one Direct forwarding target.  YAML-absent
optional scalars unmarshal to the zero value (`""`/`0`); the optional
pointer `MaxRetries *int` is an `Option Int`. -/
structure Service where
  name : String
  serviceName : String
  remotePort : Int
  localPort : Int
  selectedByDefault : Bool
  context : String
  nspace : String
  maxRetries : Option Int
  deriving DecidableEq, Repr

/-- Model of `ProxyService` (config.go): one Proxy forwarding target. -/
structure ProxyService where
  name : String
  targetHost : String
  targetPort : Int
  localPort : Int
  selectedByDefault : Bool
  context : String
  nspace : String
  maxRetries : Option Int
  sqlTapPort : Option Int
  sqlTapGrpcPort : Option Int
  sqlTapDriver : String
  sqlTapDsnEnv : String
  deriving DecidableEq, Repr

/-- Model of `Service.GetContext` (config.go). -/
def Service.GetContext (s : Service) (globalContext : String) : String :=
  if s.context != "" then s.context else globalContext

/-- Model of `Service.GetNamespace` (config.go). -/
def Service.GetNamespace (s : Service) (globalNamespace : String) : String :=
  if s.nspace != "" then s.nspace else globalNamespace

/-- Model of `Service.GetMaxRetries` (config.go): the per-service override, stored as
an optional pointer, wins when present (even when it is `0`); otherwise the
global default applies. -/
def Service.GetMaxRetries (s : Service) (globalMaxRetries : Int) : Int :=
  match s.maxRetries with
  | some v => v
  | none => globalMaxRetries

/-- Model of `ProxyService.GetContext` (config.go). -/
def ProxyService.GetContext (ps : ProxyService) (globalContext : String) : String :=
  if ps.context != "" then ps.context else globalContext

/-- Model of `ProxyService.GetNamespace` (config.go). -/
def ProxyService.GetNamespace (ps : ProxyService) (globalNamespace : String) : String :=
  if ps.nspace != "" then ps.nspace else globalNamespace

/-- Model of `ProxyService.GetMaxRetries` (config.go). -/
def ProxyService.GetMaxRetries (ps : ProxyService) (globalMaxRetries : Int) : Int :=
  match ps.maxRetries with
  | some v => v
  | none => globalMaxRetries

/-- Model of `PortConflictInfo` (portforward.go). -/
structure PortConflictInfo where
  hasConflict : Bool
  isKubectl : Bool
  processPID : Int
  processCommand : String
  deriving DecidableEq, Repr

/-- A `PortConflictInfo` reporting no conflict (zero value plus
`HasConflict=false`, as produced by `DetectPortConflict` on a free port). -/
def noConflict : PortConflictInfo :=
  { hasConflict := false, isKubectl := false, processPID := 0, processCommand := "" }

/-- The conflict error message built identically at portforward.go lines
73-81, 101-109 and 418-427. -/
def conflictErrorMessage (info : PortConflictInfo) : String :=
  if info.isKubectl then
    "Port already in use by kubectl port-forward (PID: " ++ toString info.processPID ++
      "). Press \x27K\x27 to kill it."
  else if info.processPID > 0 then
    "Port already in use by PID " ++ toString info.processPID ++ ". Press \x27K\x27 to kill it."
  else
    "Port already in use by another process"

/-- Model of `PortForward` (portforward.go): the state record of one Direct forward
supervisor.  The live handles `cmd`/`cancel` are modelled by `hasCancel`
(whether `cancel != nil`); the mutex is implicit (see `Action`). -/
structure PortForward where
  service : Service
  status : PortForwardStatus
  errorMessage : String
  commandString : String
  conflictInfo : PortConflictInfo
  hasCancel : Bool
  context : String
  nspace : String
  retryCount : Nat
  maxRetries : Int
  manualStop : Bool
  retrying : Bool
  deriving DecidableEq, Repr

/-- Model of `NewPortForward` (portforward.go).  `initialConflict` is the outcome of
the `DetectPortConflict(service.LocalPort)` call made by the constructor. -/
def NewPortForward (service : Service) (globalContext globalNamespace : String)
    (globalMaxRetries : Int) (initialConflict : PortConflictInfo) : PortForward :=
  let pf : PortForward :=
    { service := service
      status := .StatusStopped
      errorMessage := ""
      commandString := ""
      conflictInfo := initialConflict
      hasCancel := false
      context := service.GetContext globalContext
      nspace := service.GetNamespace globalNamespace
      retryCount := 0
      maxRetries := service.GetMaxRetries globalMaxRetries
      manualStop := false
      retrying := false }
  if initialConflict.hasConflict then
    { pf with status := .StatusError, errorMessage := conflictErrorMessage initialConflict }
  else pf

/-- Environment of one `PortForward.Start` call: the outcome of the
`DetectPortConflict` query and of the `cmd.Start()` spawn attempt. -/
structure StartEnv where
  /-- Result of `DetectPortConflict(pf.Service.LocalPort)`. -/
  conflict : PortConflictInfo
  /-- Whether `pf.cmd.Start()` succeeded. -/
  spawnOk : Bool
  /-- The `error` text when the spawn failed. -/
  spawnErrMsg : String
  /-- Contents of the captured stderr builder at spawn-failure time. -/
  spawnStderr : String
  deriving Repr

/-- The kubectl command line built at portforward.go lines 124-136:
`kubectl --context=<ctx> -n <ns> port-forward service/<name> <local>:<remote>`. -/
def PortForward.buildCommandString (pf : PortForward) : String :=
  "kubectl --context=" ++ pf.context ++ " -n " ++ pf.nspace ++
    " port-forward service/" ++ pf.service.serviceName ++ " " ++
    toString pf.service.localPort ++ ":" ++ toString pf.service.remotePort

/-- Model of `PortForward.Start` (portforward.go lines 88-166).  Returns the new
state, the Go return value (`Except` for `error`), and the trace of external
actions.  Note line 164: a successful spawn resets `retryCount` to 0. -/
def PortForward.Start (env : StartEnv) (pf : PortForward) :
    PortForward × Except String Unit × List Action :=
  if pf.status = .StatusRunning ∨ pf.status = .StatusStarting then
    (pf, .error "port forward already running", [])
  else if env.conflict.hasConflict then
    ({ pf with conflictInfo := env.conflict
               status := .StatusError
               errorMessage := conflictErrorMessage env.conflict
               manualStop := true },
      .error ("port " ++ toString pf.service.localPort ++ " already in use"), [])
  else
    let pf1 := { pf with status := .StatusStarting
                         errorMessage := ""
                         manualStop := false
                         retrying := false
                         hasCancel := true
                         commandString := pf.buildCommandString }
    if env.spawnOk then
      ({ pf1 with status := .StatusRunning, retryCount := 0 }, .ok (),
        [.spawnProcess pf1.commandString])
    else
      ({ pf1 with status := .StatusError
                  errorMessage :=
                    "Failed to start: " ++ env.spawnErrMsg ++
                      (if env.spawnStderr.length > 0 then
                        " | stderr: " ++ env.spawnStderr else "")
                  hasCancel := false },
        .error env.spawnErrMsg, [])

/-- Environment of one observation of the subprocess exit
(`cmd.Wait()` returning inside `monitor`). -/
structure ExitEnv where
  /-- Whether `cmd.Wait()` returned a non-nil error (non-zero exit / kill). -/
  exitErr : Bool
  /-- The text of that error. -/
  exitErrMsg : String
  /-- Contents of the captured stderr builder. -/
  stderrText : String
  deriving Repr

/-- The backoff computation at portforward.go line 180:
`math.Min(math.Pow(2, float64(retryCount)), 60)`.  Powers of two and 60 are
exactly representable as float64 (for large exponents `Pow` overflows
towards infinity and the min is still 60), so the float computation agrees
with `min (2 ^ n) 60` on `Nat` for every retry count. -/
def backoffSeconds (retryCount : Nat) : Nat :=
  min (2 ^ retryCount) 60

/-- The "Connection lost" message of portforward.go lines 184-189. -/
def retryMessage (backoff : Nat) (attempt : Nat) (maxRetries : Int) : String :=
  "Connection lost, retrying in " ++ toString backoff ++ "s (attempt " ++
    toString attempt ++
    (if maxRetries = -1 then ")..." else "/" ++ toString maxRetries ++ ")...")

/-- The retry-exhaustion message of portforward.go lines 221-228. -/
def exhaustMessage (exitErrMsg stderrText : String) (retryCount : Nat)
    (commandString : String) : String :=
  "Process exited: " ++ exitErrMsg ++
    (if stderrText.length > 0 then " | stderr: " ++ stderrText.trim else "") ++
    (if retryCount > 0 then
      " | Failed after " ++ toString retryCount ++ " retries" else "") ++
    " | Command: " ++ commandString

/-- Model of `PortForward.monitor` (portforward.go lines 169-237): one full run of
the monitor goroutine, from the return of `cmd.Wait()` (whose outcome is
`env`) to the goroutine ending.  When the retry path re-invokes `Start()`,
that inner call consumes `startEnv`.  The retry decision is
`!manualStop && (maxRetries == -1 || retryCount < maxRetries)`. -/
def PortForward.monitorExit (env : ExitEnv) (startEnv : StartEnv)
    (pf : PortForward) : PortForward × List Action :=
  if env.exitErr ∧ pf.status ≠ .StatusStopped then
    let shouldRetry : Bool :=
      !pf.manualStop && (pf.maxRetries == -1 || (pf.retryCount : Int) < pf.maxRetries)
    if shouldRetry then
      let backoff := backoffSeconds pf.retryCount
      let pf1 := { pf with retryCount := pf.retryCount + 1
                           retrying := true
                           status := .StatusError
                           errorMessage :=
                             retryMessage backoff (pf.retryCount + 1) pf.maxRetries }
      -- `time.Sleep(backoff seconds)` outside the lock, then `pf.Start()`.
      let (pf2, res, startActs) := pf1.Start startEnv
      let result : PortForward :=
        match res with
        | .ok _ => pf2
        | .error e =>
          if pf2.manualStop then
            { pf2 with status := .StatusError, retrying := false }
          else
            { pf2 with status := .StatusError
                       errorMessage := "Retry failed: " ++ e }
      (result, Action.sleepSeconds backoff :: startActs)
    else
      ({ pf with status := .StatusError
                 retrying := false
                 errorMessage :=
                   exhaustMessage env.exitErrMsg env.stderrText pf.retryCount
                     pf.commandString }, [])
  else
    if pf.status = .StatusRunning then
      ({ pf with status := .StatusStopped }, [])
    else (pf, [])

/-- Model of `PortForward.Stop` (portforward.go lines 240-258).  The Go function
always returns `nil`; only the state and the cancellation action matter. -/
def PortForward.Stop (pf : PortForward) : PortForward × List Action :=
  if pf.status ≠ .StatusRunning ∧ pf.status ≠ .StatusStarting then
    (pf, [])
  else
    let acts := if pf.hasCancel then [Action.cancelProcess] else []
    ({ pf with hasCancel := false
               status := .StatusStopped
               errorMessage := ""
               manualStop := true
               retrying := false }, acts)

/-- Model of `PortForward.IsRunning` (portforward.go). -/
def PortForward.IsRunning (pf : PortForward) : Bool :=
  pf.status = .StatusRunning ∨ pf.status = .StatusStarting

/-- Model of `PortForward.GetStatus` (portforward.go). -/
def PortForward.GetStatus (pf : PortForward) : PortForwardStatus × String :=
  (pf.status, pf.errorMessage)

/-- Model of `PortForward.GetRetryInfo` (portforward.go). -/
def PortForward.GetRetryInfo (pf : PortForward) : Bool × Nat × Int :=
  (pf.retrying, pf.retryCount, pf.maxRetries)

/-! ## Proxy-pod lifecycle manager (proxypod.go) -/

/-- Insert-or-replace update of a `map[string]int`, modelled on an
association list. -/
def mapInsert (m : List (String × Int)) (k : String) (v : Int) :
    List (String × Int) :=
  match m with
  | [] => [(k, v)]
  | (k0, v0) :: rest =>
    if k0 = k then (k, v) :: rest else (k0, v0) :: mapInsert rest k v

/-- Lookup in a `map[string]int` (second return value of a Go map access). -/
def mapLookup (m : List (String × Int)) (k : String) : Option Int :=
  match m with
  | [] => none
  | (k0, v0) :: rest => if k0 = k then some v0 else mapLookup rest k

/-- Model of `ProxyPodManager` (proxypod.go): identity fields plus the lock-guarded
mutable state. -/
structure ProxyPodManager where
  podName : String
  podImage : String
  nspace : String
  context : String
  currentServices : List ProxyService
  podPorts : List (String × Int)
  status : ProxyPodStatus
  errorMessage : String
  deriving DecidableEq, Repr

/-- Model of `NewProxyPodManager` (proxypod.go). -/
def NewProxyPodManager (podName podImage nspace context : String) :
    ProxyPodManager :=
  { podName := podName
    podImage := podImage
    nspace := nspace
    context := context
    currentServices := []
    podPorts := []
    status := .ProxyPodStatusNotCreated
    errorMessage := "" }

/-- The port-assignment loop of proxypod.go lines 85-88: service `i` of the
selection gets internal relay port `10000 + i`; a later duplicate name
overwrites an earlier one, exactly as the Go map assignment does. -/
def assignPodPorts (selectedServices : List ProxyService) :
    List (String × Int) :=
  selectedServices.enum.foldl
    (fun m iv => mapInsert m iv.2.name (10000 + (iv.1 : Int))) []

/-- Outcome of the `kubectl run` creation attempt (proxypod.go lines
105-143).  `msg` stands for the formatted `%v | %s` tail combining the exec
error and the captured output. -/
inductive PodCreateResult where
  /-- Creation succeeded. -/
  | ok
  /-- Creation failed with `AlreadyExists`; `retry` is the outcome of the
  forced-delete-and-retry creation. -/
  | alreadyExists (retry : Except String Unit)
  /-- Creation failed for any other reason. -/
  | otherError (msg : String)
  deriving Repr

/-- Environment of one `CreatePodWithServices` call. -/
structure PodEnv where
  /-- Outcome of the `kubectl run` creation (and its optional retry). -/
  createResult : PodCreateResult
  /-- Outcome of `waitForPodReady(60s)`: `.error` is returned verbatim by
  the Go function (timeout or `checkPodExists` failure). -/
  readyResult : Except String Unit
  deriving Repr

/-- Model of `ProxyPodManager.CreatePodWithServices` (proxypod.go lines 66-176).
The whole body runs under the manager lock; every `kubectl` interaction is
abstracted through `env` and recorded in the trace. -/
def ProxyPodManager.CreatePodWithServices (env : PodEnv)
    (selectedServices : List ProxyService) (pm : ProxyPodManager) :
    ProxyPodManager × Except String Unit × List Action :=
  let pm1 := { pm with status := .ProxyPodStatusCreating, errorMessage := "" }
  -- `pm.deletePodUnsafe()` (return value discarded).
  if selectedServices.isEmpty then
    ({ pm1 with status := .ProxyPodStatusNotCreated
                currentServices := []
                podPorts := [] }, .ok (), [.deletePod])
  else
    let pm2 := { pm1 with podPorts := assignPodPorts selectedServices }
    let afterCreate :
        Option (ProxyPodManager × Except String Unit × List Action) ×
          List Action :=
      match env.createResult with
      | .ok => (none, [.deletePod, .createPod])
      | .otherError msg =>
        let errMsg := "Failed to create pod: " ++ msg
        (some ({ pm2 with status := .ProxyPodStatusError, errorMessage := errMsg },
          .error errMsg, [.deletePod, .createPod]), [])
      | .alreadyExists retry =>
        let acts : List Action :=
          [.deletePod, .createPod, .deletePod, .sleepSeconds 3, .createPod]
        match retry with
        | .ok _ => (none, acts)
        | .error m =>
          let errMsg := "Failed to create pod (retry): " ++ m
          (some ({ pm2 with status := .ProxyPodStatusError, errorMessage := errMsg },
            .error errMsg, acts), [])
    match afterCreate with
    | (some result, _) => result
    | (none, acts) =>
      match env.readyResult with
      | .error m =>
        ({ pm2 with status := .ProxyPodStatusError
                    errorMessage := "Pod failed to become ready: " ++ m },
          .error m, acts)
      | .ok _ =>
        ({ pm2 with status := .ProxyPodStatusReady
                    currentServices := selectedServices
                    errorMessage := "" }, .ok (), acts)

/-- Model of `ProxyPodManager.DeletePod` (proxypod.go lines 305-320).
`deleteResult` is the outcome of `deletePodUnsafe`. -/
def ProxyPodManager.DeletePod (deleteResult : Except String Unit)
    (pm : ProxyPodManager) :
    ProxyPodManager × Except String Unit × List Action :=
  match deleteResult with
  | .error e => (pm, .error e, [.deletePod])
  | .ok _ =>
    ({ pm with status := .ProxyPodStatusNotCreated
               currentServices := []
               podPorts := []
               errorMessage := "" }, .ok (), [.deletePod])

/-- Model of `ProxyPodManager.GetActiveServiceNames` (proxypod.go). -/
def ProxyPodManager.GetActiveServiceNames (pm : ProxyPodManager) :
    List String :=
  pm.currentServices.map (fun svc => svc.name)

/-- Model of `ProxyPodManager.IsServiceActive` (proxypod.go). -/
def ProxyPodManager.IsServiceActive (pm : ProxyPodManager) (name : String) :
    Bool :=
  pm.currentServices.any (fun svc => svc.name = name)

/-- Model of `ProxyPodManager.GetPodPort` (proxypod.go): the Go function returns
`(port, exists)`; the embedding fuses the pair into an `Option`. -/
def ProxyPodManager.GetPodPort (pm : ProxyPodManager) (serviceName : String) :
    Option Int :=
  mapLookup pm.podPorts serviceName

/-- Model of `ProxyPodManager.GetStatus` (proxypod.go). -/
def ProxyPodManager.GetStatus (pm : ProxyPodManager) :
    ProxyPodStatus × String × Nat :=
  (pm.status, pm.errorMessage, pm.currentServices.length)

/-! ## Dependent SQL-tap supervisor (sqltap.go) and proxy forward
(proxypod.go lines 363-544) -/

/-- Model of `SqlTapManager` (sqltap.go). -/
structure SqlTapManager where
  enabled : Bool
  driver : String
  listenPort : Int
  upstreamPort : Int
  grpcPort : Int
  hasCancel : Bool
  status : PortForwardStatus
  errorMessage : String
  deriving DecidableEq, Repr

/-- Model of `NewSqlTapManager` (sqltap.go). -/
def NewSqlTapManager (enabled : Bool) (driver : String)
    (listenPort upstreamPort grpcPort : Int) : SqlTapManager :=
  { enabled := enabled
    driver := driver
    listenPort := listenPort
    upstreamPort := upstreamPort
    grpcPort := grpcPort
    hasCancel := false
    status := .StatusStopped
    errorMessage := "" }

/-- Model of `SqlTapManager.composeDatabaseURL` (sqltap.go): `postgres` maps to the
`postgresql` scheme, every other driver name is used verbatim. -/
def SqlTapManager.composeDatabaseURL (stm : SqlTapManager) : String :=
  let protocol := if stm.driver = "postgres" then "postgresql" else stm.driver
  protocol ++ "://127.0.0.1:" ++ toString stm.upstreamPort

/-- Model of `SqlTapManager.IsEnabled` (sqltap.go). -/
def SqlTapManager.IsEnabled (stm : SqlTapManager) : Bool :=
  stm.enabled

/-- Environment of one `SqlTapManager.Start` call. -/
structure TapStartEnv where
  /-- Whether `stm.cmd.Start()` succeeded. -/
  spawnOk : Bool
  /-- The error text when the spawn failed. -/
  spawnErrMsg : String
  /-- Captured stderr at spawn-failure time / after the settle sleep. -/
  stderrText : String
  /-- Whether the process had already exited when checked 500ms after the
  spawn (`cmd.ProcessState != nil && cmd.ProcessState.Exited()`). -/
  exitedImmediately : Bool
  deriving Repr

/-- Model of `SqlTapManager.Start` (sqltap.go lines 50-121). -/
def SqlTapManager.Start (env : TapStartEnv) (stm : SqlTapManager) :
    SqlTapManager × Except String Unit × List Action :=
  if ¬stm.enabled then (stm, .ok (), [])
  else if stm.status = .StatusRunning ∨ stm.status = .StatusStarting then
    (stm, .error "sql-tapd already running", [])
  else
    let stm1 := { stm with status := .StatusStarting
                           errorMessage := ""
                           hasCancel := true }
    if ¬env.spawnOk then
      let msg := "Failed to start sql-tapd: " ++ env.spawnErrMsg ++
        (if env.stderrText.length > 0 then " | stderr: " ++ env.stderrText else "")
      ({ stm1 with status := .StatusError, errorMessage := msg, hasCancel := false },
        .error msg, [])
    else if env.exitedImmediately then
      let msg := "sql-tapd exited immediately" ++
        (if env.stderrText.length > 0 then " | stderr: " ++ env.stderrText else "")
      ({ stm1 with status := .StatusError, errorMessage := msg },
        .error msg, [.tapSpawn, .sleepMs 500])
    else
      ({ stm1 with status := .StatusRunning }, .ok (),
        [.tapSpawn, .sleepMs 500])

/-- Model of `SqlTapManager.Stop` (sqltap.go lines 144-165, same shape as
`PortForward.Stop`). -/
def SqlTapManager.Stop (stm : SqlTapManager) : SqlTapManager × List Action :=
  if ¬stm.enabled then (stm, [])
  else if stm.status ≠ .StatusRunning ∧ stm.status ≠ .StatusStarting then
    (stm, [])
  else
    let acts := if stm.hasCancel then [Action.cancelProcess] else []
    ({ stm with hasCancel := false
                status := .StatusStopped
                errorMessage := "" }, acts)

/-- Model of `ProxyForward` (proxypod.go lines 363-410): supervisor of one proxy
port-forward, embedding its dependent sql-tap supervisor. -/
structure ProxyForward where
  proxyService : ProxyService
  status : PortForwardStatus
  errorMessage : String
  commandString : String
  hasCancel : Bool
  context : String
  nspace : String
  sqlTapManager : SqlTapManager
  deriving DecidableEq, Repr

/-- Environment of one `ProxyForward.Start` call. -/
structure ProxyStartEnv where
  /-- Whether `pf.cmd.Start()` succeeded. -/
  spawnOk : Bool
  /-- The error text when the spawn failed. -/
  spawnErrMsg : String
  /-- Captured stderr at spawn-failure time. -/
  spawnStderr : String
  /-- Environment of the inner `sqlTapManager.Start()` call. -/
  tapEnv : TapStartEnv
  deriving Repr

/-- The kubectl command line built at proxypod.go lines 437-448. -/
def ProxyForward.buildCommandString (manager : ProxyPodManager)
    (pf : ProxyForward) (podPort : Int) : String :=
  "kubectl --context=" ++ manager.context ++ " -n " ++ manager.nspace ++
    " port-forward pod/" ++ manager.podName ++ " " ++
    toString pf.proxyService.localPort ++ ":" ++ toString podPort

/-- Model of `ProxyForward.Start` (proxypod.go lines 413-498).  The relay port is
re-resolved from the manager state on every call; when the tap is enabled,
the forward settles for 2 seconds and then starts the tap, tearing itself
down (cancelling the subprocess) if the tap fails. -/
def ProxyForward.Start (manager : ProxyPodManager) (env : ProxyStartEnv)
    (pf : ProxyForward) : ProxyForward × Except String Unit × List Action :=
  if pf.status = .StatusRunning ∨ pf.status = .StatusStarting then
    (pf, .error "proxy forward already running", [])
  else
    match manager.GetPodPort pf.proxyService.name with
    | none =>
      ({ pf with status := .StatusError
                 errorMessage := "Service not found in proxy pod" },
        .error "Service not found in proxy pod", [])
    | some podPort =>
      let pf1 := { pf with status := .StatusStarting
                           errorMessage := ""
                           hasCancel := true
                           commandString := pf.buildCommandString manager podPort }
      if ¬env.spawnOk then
        ({ pf1 with status := .StatusError
                    errorMessage :=
                      "Failed to start: " ++ env.spawnErrMsg ++
                        (if env.spawnStderr.length > 0 then
                          " | stderr: " ++ env.spawnStderr else "")
                    hasCancel := false },
          .error env.spawnErrMsg, [])
      else
        let pf2 := { pf1 with status := .StatusRunning }
        if pf2.sqlTapManager.IsEnabled then
          let (tap2, tapRes, tapActs) := pf2.sqlTapManager.Start env.tapEnv
          let acts := Action.spawnProcess pf1.commandString ::
            Action.sleepSeconds 2 :: tapActs
          match tapRes with
          | .error e =>
            -- `pf.cancel()` is invoked but the handle is not cleared.
            (({ pf2 with sqlTapManager := tap2
                         status := .StatusError
                         errorMessage := "sql-tap failed: " ++ e }),
              .error e,
              acts ++ (if pf2.hasCancel then [Action.cancelProcess] else []))
          | .ok _ =>
            ({ pf2 with sqlTapManager := tap2 }, .ok (), acts)
        else
          (pf2, .ok (), [Action.spawnProcess pf1.commandString])

/-- Model of `ProxyForward.monitor` (proxypod.go lines 501-518): one observation of
the subprocess exit.  Unlike `PortForward.monitor` there is no retry. -/
def ProxyForward.monitorExit (env : ExitEnv) (pf : ProxyForward) :
    ProxyForward :=
  if env.exitErr ∧ pf.status ≠ .StatusStopped then
    { pf with status := .StatusError
              errorMessage :=
                "Process exited: " ++ env.exitErrMsg ++
                  (if env.stderrText.length > 0 then
                    " | stderr: " ++ env.stderrText.trim else "") }
  else
    if pf.status = .StatusRunning then { pf with status := .StatusStopped }
    else pf

/-- Model of `ProxyForward.Stop` (proxypod.go lines 521-544): the tap is stopped
strictly before the parent cancellation. -/
def ProxyForward.Stop (pf : ProxyForward) : ProxyForward × List Action :=
  if pf.status ≠ .StatusRunning ∧ pf.status ≠ .StatusStarting then
    (pf, [])
  else
    let (tap2, tapActs) :=
      if pf.sqlTapManager.IsEnabled then pf.sqlTapManager.Stop
      else (pf.sqlTapManager, [])
    let acts := tapActs ++ (if pf.hasCancel then [Action.cancelProcess] else [])
    ({ pf with sqlTapManager := tap2
               hasCancel := false
               status := .StatusStopped
               errorMessage := "" }, acts)

/-! ## Conflict / port inspector (port_utils.go and
portforward.go lines 301-365) -/

/-- Model of `strings.Fields`: split on runs of whitespace, dropping empty pieces. -/
def goFields (line : String) : List String :=
  (line.split (fun c => c.isWhitespace)).filter (fun t => t ≠ "")

/-- Model of `strings.Contains` for a non-empty pattern, via `splitOn`. -/
def goContains (s pat : String) : Bool :=
  (s.splitOn pat).length > 1

/-- Model of `fmt.Sscanf(s, "%d", &pid)`: skip leading spaces, read an optionally
signed digit run; the scanned variable keeps its zero value when no digits
are found. -/
def goScanInt (s : String) : Int :=
  let cs := s.toList.dropWhile (fun c => c.isWhitespace)
  let signed : Bool × List Char :=
    match cs with
    | '-' :: rest => (true, rest)
    | '+' :: rest => (false, rest)
    | _ => (false, cs)
  let digits := signed.2.takeWhile (fun c => c.isDigit)
  if digits.isEmpty then 0
  else
    let n : Nat := digits.foldl (fun acc c => acc * 10 + (c.toNat - 48)) 0
    if signed.1 then -(n : Int) else (n : Int)

/-- Model of `strconv.Atoi` restricted to the shapes that occur in lsof output:
`String.toInt?` accepts an optional minus sign followed by digits and fails
otherwise, as `Atoi` does (Go additionally accepts a leading plus sign,
which lsof PID columns never produce). -/
def goAtoi (s : String) : Option Int :=
  s.toInt?

/-- Model of `PortUsageInfo` (port_utils.go). -/
structure PortUsageInfo where
  inUse : Bool
  pid : Int
  processInfo : String
  status : PortStatus
  deriving DecidableEq, Repr

/-- Outcome of the `lsof -i :PORT -P -n -sTCP:LISTEN` invocation inside
`GetPortUsage`. -/
inductive LsofResult where
  /-- lsof ran and exited non-zero (`*exec.ExitError`); the payload is the
  exit code.  Exit code 1 means no process uses the port. -/
  | exitError (exitCode : Int)
  /-- The command could not be run at all (binary missing, permission
  denied before exec, ...): the error is not an `*exec.ExitError`. -/
  | execFailure (msg : String)
  /-- lsof succeeded; the payload is its combined output text. -/
  | output (text : String)
  deriving Repr

/-- Environment of one `GetPortUsage` call: the lsof outcome plus the
`getProcessDetails` oracle (`""` when `ps` fails for that PID). -/
structure LsofEnv where
  result : LsofResult
  processDetails : Int → String

/-- The scan over lsof data lines at port_utils.go lines 69-98: the first
line with at least two fields and a numeric PID column fills the info
record and breaks. -/
def parseLsofLines (details : Int → String) (info : PortUsageInfo) :
    List String → PortUsageInfo
  | [] => info
  | line :: rest =>
    if line.trim = "" then parseLsofLines details info rest
    else
      match goFields line with
      | command :: pidStr :: _ =>
        match goAtoi pidStr with
        | none => parseLsofLines details info rest
        | some pid =>
          let detailed := details pid
          { info with inUse := true
                      pid := pid
                      processInfo := if detailed ≠ "" then detailed else command
                      status := .PortStatusExternal }
      | _ => parseLsofLines details info rest

/-- Model of `GetPortUsage` (port_utils.go lines 30-101). -/
def GetPortUsage (env : LsofEnv) : PortUsageInfo × Option String :=
  let info : PortUsageInfo :=
    { inUse := false, pid := 0, processInfo := "", status := .PortStatusFree }
  match env.result with
  | .exitError exitCode =>
    if exitCode = 1 then (info, none)
    else (info, some ("failed to run lsof: exit status " ++ toString exitCode))
  | .execFailure msg => (info, some ("failed to run lsof: " ++ msg))
  | .output text =>
    let lines := text.splitOn "\n"
    if lines.length < 2 then (info, none)
    else (parseLsofLines env.processDetails info (lines.drop 1), none)

/-- Environment of one `DetectPortConflict` call (portforward.go lines
322-365): the bind probe, the `lsof -t` output (present only when lsof
succeeded with non-empty output), and the `ps` output per PID. -/
structure ConflictEnv where
  /-- Result of `isPortAvailable(port)` (the IPv4+IPv6 bind probe). -/
  portAvailable : Bool
  /-- Model of `lsof -i :PORT -t` output when `err == nil && len(output) > 0`. -/
  lsofOutput : Option String
  /-- Model of `ps -p PID -o command=` output, `none` when the command failed. -/
  psOutput : Int → Option String

/-- Model of `DetectPortConflict` (portforward.go lines 322-365).  The bind probe
alone decides `HasConflict`; lsof only refines the PID/command fields, so
an lsof outage can never mark a free port as conflicted. -/
def DetectPortConflict (env : ConflictEnv) : PortConflictInfo :=
  let info := noConflict
  if env.portAvailable then info
  else
    let info := { info with hasConflict := true }
    match env.lsofOutput with
    | none => info
    | some text =>
      let pidStr := text.trim
      let lines := pidStr.splitOn "\n"
      match lines with
      | [] => info
      | first :: _ =>
        let pid := goScanInt first
        if pid > 0 then
          let info := { info with processPID := pid }
          match env.psOutput pid with
          | none => info
          | some cmdOut =>
            let processCommand := cmdOut.trim
            { info with
                processCommand := processCommand
                isKubectl :=
                  goContains processCommand "kubectl" &&
                    goContains processCommand "port-forward" }
        else info

/-! ## Configuration loading (config.go) -/

/-- Model of `AlternativeContext` (config.go). -/
structure AlternativeContext where
  name : String
  context : String
  deriving DecidableEq, Repr

/-- Model of `Preset` (config.go). -/
structure Preset where
  name : String
  services : List String
  deriving DecidableEq, Repr

/-- Model of `Config` (config.go).  The YAML unmarshalling step is external to the
model: `LoadConfig` below receives the already-unmarshalled record, in
which an absent scalar field is the zero value (`0` / `""`) and an absent
pointer field is `none` — so a global `max_retries` of `0` and an absent
one are indistinguishable. -/
structure Config where
  clusterContext : String
  clusterName : String
  nspace : String
  maxRetries : Int
  alternativeContexts : List AlternativeContext
  presets : List Preset
  services : List Service
  proxyPodName : String
  proxyPodImage : String
  proxyPodContext : String
  proxyPodNamespace : String
  proxyServices : List ProxyService
  deriving DecidableEq, Repr

/-- The defaulting block of `LoadConfig` (config.go lines 150-167). -/
def applyConfigDefaults (config : Config) : Config :=
  let config :=
    if config.maxRetries = 0 then { config with maxRetries := -1 } else config
  let config :=
    if config.proxyPodName = "" then
      { config with proxyPodName := "kubefwd-proxy" } else config
  let config :=
    if config.proxyPodImage = "" then
      { config with proxyPodImage := "alpine/socat:latest" } else config
  let config :=
    if config.proxyPodContext = "" then
      { config with proxyPodContext := config.clusterContext } else config
  if config.proxyPodNamespace = "" then
    { config with proxyPodNamespace := config.nspace } else config

/-- The per-service validation loop of `LoadConfig` (config.go lines
181-194); `i` is the running index used in the error messages. -/
def validateServices (i : Nat) : List Service → Except String Unit
  | [] => .ok ()
  | svc :: rest =>
    if svc.name = "" then
      .error ("service " ++ toString i ++ ": name is required")
    else if svc.serviceName = "" then
      .error ("service " ++ toString i ++ " (" ++ svc.name ++ "): service_name is required")
    else if svc.remotePort ≤ 0 ∨ svc.remotePort > 65535 then
      .error ("service " ++ toString i ++ " (" ++ svc.name ++ "): invalid remote_port")
    else if svc.localPort ≤ 0 ∨ svc.localPort > 65535 then
      .error ("service " ++ toString i ++ " (" ++ svc.name ++ "): invalid local_port")
    else validateServices (i + 1) rest

/-- The per-proxy-service validation of `LoadConfig` (config.go lines
197-244), which also fills the sql-tap defaults in place. -/
def validateProxyService (i : Nat) (pxSvc : ProxyService) :
    Except String ProxyService :=
  if pxSvc.name = "" then
    .error ("proxy_service " ++ toString i ++ ": name is required")
  else if pxSvc.targetHost = "" then
    .error ("proxy_service " ++ toString i ++ " (" ++ pxSvc.name ++ "): target_host is required")
  else if pxSvc.targetPort ≤ 0 ∨ pxSvc.targetPort > 65535 then
    .error ("proxy_service " ++ toString i ++ " (" ++ pxSvc.name ++ "): invalid target_port")
  else if pxSvc.localPort ≤ 0 ∨ pxSvc.localPort > 65535 then
    .error ("proxy_service " ++ toString i ++ " (" ++ pxSvc.name ++ "): invalid local_port")
  else
    match pxSvc.sqlTapPort with
    | none => .ok pxSvc
    | some tapPort =>
      if pxSvc.sqlTapDriver = "" then
        .error ("proxy_service " ++ toString i ++ " (" ++ pxSvc.name ++
          "): sql_tap_driver is required when sql_tap_port is set")
      else if pxSvc.sqlTapDriver ≠ "postgres" ∧ pxSvc.sqlTapDriver ≠ "mysql" then
        .error ("proxy_service " ++ toString i ++ " (" ++ pxSvc.name ++
          "): sql_tap_driver must be \x27postgres\x27 or \x27mysql\x27")
      else if tapPort = pxSvc.localPort then
        .error ("proxy_service " ++ toString i ++ " (" ++ pxSvc.name ++
          "): sql_tap_port must be different from local_port")
      else if tapPort ≤ 0 ∨ tapPort > 65535 then
        .error ("proxy_service " ++ toString i ++ " (" ++ pxSvc.name ++
          "): invalid sql_tap_port")
      else
        match pxSvc.sqlTapGrpcPort with
        | none =>
          let pxSvc := { pxSvc with sqlTapGrpcPort := some 9091 }
          .ok (if pxSvc.sqlTapDsnEnv = "" then
            { pxSvc with sqlTapDsnEnv := "DATABASE_URL" } else pxSvc)
        | some grpcPort =>
          if grpcPort ≤ 0 ∨ grpcPort > 65535 then
            .error ("proxy_service " ++ toString i ++ " (" ++ pxSvc.name ++
              "): invalid sql_tap_grpc_port")
          else
            .ok (if pxSvc.sqlTapDsnEnv = "" then
              { pxSvc with sqlTapDsnEnv := "DATABASE_URL" } else pxSvc)

/-- Folds `validateProxyService` over the list, collecting the updated
records. -/
def validateProxyServices (i : Nat) :
    List ProxyService → Except String (List ProxyService)
  | [] => .ok []
  | p :: rest =>
    match validateProxyService i p with
    | .error e => .error e
    | .ok p2 =>
      match validateProxyServices (i + 1) rest with
      | .error e => .error e
      | .ok rest2 => .ok (p2 :: rest2)

/-- Insertion of one service into a name-sorted list. -/
def insertServiceByName (svc : Service) : List Service → List Service
  | [] => [svc]
  | s :: rest =>
    if svc.name < s.name then svc :: s :: rest
    else s :: insertServiceByName svc rest

/-- The `sort.Slice` call on `config.Services` (config.go lines 247-249),
realised as an insertion sort over the same `Name < Name` ordering
(`sort.Slice` promises no particular algorithm or stability). -/
def sortServicesByName : List Service → List Service
  | [] => []
  | s :: rest => insertServiceByName s (sortServicesByName rest)

/-- Insertion of one proxy service into a name-sorted list. -/
def insertProxyServiceByName (svc : ProxyService) :
    List ProxyService → List ProxyService
  | [] => [svc]
  | s :: rest =>
    if svc.name < s.name then svc :: s :: rest
    else s :: insertProxyServiceByName svc rest

/-- The `sort.Slice` call on `config.ProxyServices` (config.go lines
252-254). -/
def sortProxyServicesByName : List ProxyService → List ProxyService
  | [] => []
  | s :: rest => insertProxyServiceByName s (sortProxyServicesByName rest)

/-- Model of `LoadConfig` (config.go lines 139-257), from the unmarshalled record
on: defaulting, validation, sorting.  File reading and YAML parsing are
external to the model. -/
def LoadConfig (parsed : Config) : Except String Config :=
  let config := applyConfigDefaults parsed
  if config.clusterContext = "" then .error "cluster_context is required"
  else if config.nspace = "" then .error "namespace is required"
  else if config.services.isEmpty ∧ config.proxyServices.isEmpty then
    .error "at least one service or proxy service must be defined"
  else
    match validateServices 0 config.services with
    | .error e => .error e
    | .ok _ =>
      match validateProxyServices 0 config.proxyServices with
      | .error e => .error e
      | .ok pxs =>
        .ok { config with services := sortServicesByName config.services
                          proxyServices := sortProxyServicesByName pxs }


/-- Decidable equality for `Except`, so that the embedded functions can be
evaluated on concrete inputs inside proofs. -/
instance {e a : Type} [DecidableEq e] [DecidableEq a] :
    DecidableEq (Except e a) := fun x y =>
  match x, y with
  | .error v, .error w =>
    if h : v = w then .isTrue (h ▸ rfl)
    else .isFalse (fun he => h (by cases he; rfl))
  | .ok v, .ok w =>
    if h : v = w then .isTrue (h ▸ rfl)
    else .isFalse (fun he => h (by cases he; rfl))
  | .error _, .ok _ => .isFalse (fun he => Except.noConfusion he)
  | .ok _, .error _ => .isFalse (fun he => Except.noConfusion he)

/-! ## Shared concrete fixtures and scenario machinery -/

/-- A Direct ServiceSpec with a per-service `max_retries` override of 2. -/
def c1Service : Service :=
  { name := "db", serviceName := "db-svc", remotePort := 5432,
    localPort := 15432, selectedByDefault := true, context := "",
    nspace := "", maxRetries := some 2 }

/-- A start environment in which the port is free and the spawn succeeds. -/
def cleanStartEnv : StartEnv :=
  { conflict := noConflict, spawnOk := true, spawnErrMsg := "", spawnStderr := "" }

/-- An exit environment in which the subprocess exited non-zero
immediately, with nothing on stderr. -/
def crashExitEnv : ExitEnv :=
  { exitErr := true, exitErrMsg := "exit status 1", stderrText := "" }

/-- One crash cycle of the C1 end-to-end scenario: the running subprocess
exits non-zero and the monitor handles it, re-spawning successfully. -/
def crashCycle (pf : PortForward) : PortForward × List Action :=
  pf.monitorExit crashExitEnv cleanStartEnv

/-- Model of `n` consecutive crash cycles, collecting the traces. -/
def crashLoop : Nat → PortForward → PortForward × List Action
  | 0, pf => (pf, [])
  | n + 1, pf =>
    let (pf1, acts) := crashCycle pf
    let (pf2, rest) := crashLoop n pf1
    (pf2, acts ++ rest)

/-- The supervisor of `c1Service` right after its first successful
`Start()`. -/
def c1pf0 : PortForward :=
  ((NewPortForward c1Service "prod" "default" (-1) noConflict).Start
    cleanStartEnv).1

/-- C1.  The claim expects: with effective `maxRetries = 2` and every
spawned subprocess exiting non-zero right after a successful spawn, exactly
2 retries with backoff 1s then 2s, then a terminal `Error` whose text
contains "Failed after 2 retries".  The code instead resets `retryCount`
to 0 on every successful re-spawn (portforward.go line 164), so each crash
cycle returns the supervisor to the exact pre-crash `Running` state: the
scenario loops forever with a constant 1s backoff and the attempt counter
pinned at 1/2, never reaching the terminal message.  This theorem
evaluates the embedded code at the failing input: after an initial
successful start (`maxRetries = 2`, `retryCount = 0`), one crash cycle is
the identity on the state, three crash cycles sleep 1s each (instead of
the claimed 1s, 2s and stop), and the state after three crashes is still
`Running` with `retryCount = 0` and an empty error text. -/
theorem C1_retry_counter_reset_loops_forever :
    c1pf0.maxRetries = 2 ∧ c1pf0.status = .StatusRunning ∧
    (crashCycle c1pf0).1 = c1pf0 ∧
    (crashLoop 3 c1pf0).1 = c1pf0 ∧
    (crashLoop 3 c1pf0).2 =
      [.sleepSeconds 1, .spawnProcess c1pf0.commandString,
       .sleepSeconds 1, .spawnProcess c1pf0.commandString,
       .sleepSeconds 1, .spawnProcess c1pf0.commandString] ∧
    (crashLoop 3 c1pf0).1.retryCount = 0 ∧
    (crashLoop 3 c1pf0).1.errorMessage = "" := by
  refine ⟨rfl, rfl, by decide, by decide, by decide, by decide, by decide⟩

/-- Helper: whenever the monitor decides to retry, its trace starts with a
sleep of `backoffSeconds retryCount` seconds. -/
theorem monitorExit_retry_sleeps (pf : PortForward) (eenv : ExitEnv)
    (senv : StartEnv) (he : eenv.exitErr = true)
    (hst : pf.status ≠ .StatusStopped)
    (hretry : (!pf.manualStop &&
      (pf.maxRetries == -1 || (pf.retryCount : Int) < pf.maxRetries)) = true) :
    ∃ rest, (pf.monitorExit eenv senv).2 =
      Action.sleepSeconds (backoffSeconds pf.retryCount) :: rest := by
  unfold PortForward.monitorExit
  rw [if_pos ⟨he, hst⟩, if_pos hretry]
  exact ⟨_, rfl⟩

/-- C2.  For a supervisor about to perform its `n`-th automatic restart
(`retryCount = n`, not manually stopped, retries not exhausted — here the
infinite setting `maxRetries = -1`), the monitor sleeps exactly
`min(2^n, 60)` seconds before re-invoking `Start()`; in particular the
backoff of attempts 0, 1, 5, 6 and 10 is 1s, 2s, 32s, 60s and 60s (capped,
not 1024s). -/
theorem C2_backoff_min_pow_capped (n : Nat) (pf : PortForward)
    (eenv : ExitEnv) (senv : StartEnv)
    (hm : pf.manualStop = false) (hmax : pf.maxRetries = -1)
    (hrc : pf.retryCount = n) (hst : pf.status = .StatusRunning)
    (he : eenv.exitErr = true) :
    (∃ rest, (pf.monitorExit eenv senv).2 =
      Action.sleepSeconds (min (2 ^ n) 60) :: rest) ∧
    backoffSeconds 0 = 1 ∧ backoffSeconds 1 = 2 ∧ backoffSeconds 5 = 32 ∧
    backoffSeconds 6 = 60 ∧ backoffSeconds 10 = 60 := by
  refine ⟨?_, by decide, by decide, by decide, by decide, by decide⟩
  have h := monitorExit_retry_sleeps pf eenv senv he
    (by rw [hst]; simp) (by rw [hm, hmax]; simp)
  rw [hrc] at h
  exact h

/-- C2 witness: the concrete supervisor `c1pf0` with `maxRetries` forced to
`-1` and `retryCount = 6` sleeps 60 seconds. -/
theorem C2_backoff_witness :
    ∃ rest,
      (PortForward.monitorExit crashExitEnv cleanStartEnv
        { c1pf0 with maxRetries := -1, retryCount := 6 }).2 =
        Action.sleepSeconds (min (2 ^ 6) 60) :: rest :=
  (C2_backoff_min_pow_capped 6
    { c1pf0 with maxRetries := -1, retryCount := 6 }
    crashExitEnv cleanStartEnv rfl rfl rfl rfl rfl).1

/-- C3.  `Stop()` while the subprocess is mid-run (status `Running` or
`Starting`) sets `manualStop = true` and status `Stopped` before the exit
is processed; the monitor observation that follows then performs no state
change, no backoff sleep and no re-spawn, whatever the exit code — the
retry decision `!manualStop && (maxRetries == -1 || retryCount < maxRetries)`
is never even reached because the guard `status != Stopped` already fails. -/
theorem C3_stop_suppresses_retry (pf : PortForward)
    (h : pf.status = .StatusRunning ∨ pf.status = .StatusStarting) :
    pf.Stop.1.manualStop = true ∧ pf.Stop.1.status = .StatusStopped ∧
    ∀ (eenv : ExitEnv) (senv : StartEnv),
      pf.Stop.1.monitorExit eenv senv = (pf.Stop.1, []) := by
  have hguard : ¬(pf.status ≠ .StatusRunning ∧ pf.status ≠ .StatusStarting) := by
    rcases h with h | h <;> simp [h]
  unfold PortForward.Stop
  rw [if_neg hguard]
  refine ⟨rfl, rfl, fun eenv senv => ?_⟩
  unfold PortForward.monitorExit
  simp

/-- C3 witness: the concrete running supervisor `c1pf0`, stopped, then
observed to exit non-zero: no retry happens. -/
theorem C3_stop_suppresses_retry_witness :
    c1pf0.Stop.1.manualStop = true ∧ c1pf0.Stop.1.status = .StatusStopped ∧
    c1pf0.Stop.1.monitorExit crashExitEnv cleanStartEnv = (c1pf0.Stop.1, []) :=
  have h := C3_stop_suppresses_retry c1pf0 (Or.inl (by decide))
  ⟨h.1, h.2.1, h.2.2 crashExitEnv cleanStartEnv⟩

/-- C4.  When `DetectPortConflict` reports the local port occupied and the
supervisor is not mid-run, `Start()` moves straight to `Error`, marks the
forward non-retryable (`manualStop = true`), returns an error, and spawns
nothing (the action trace is empty). -/
theorem C4_conflict_preempts_launch (pf : PortForward) (env : StartEnv)
    (h1 : pf.status ≠ .StatusRunning) (h2 : pf.status ≠ .StatusStarting)
    (hc : env.conflict.hasConflict = true) :
    (pf.Start env).1.status = .StatusError ∧
    (pf.Start env).1.manualStop = true ∧
    (pf.Start env).2.1 =
      .error ("port " ++ toString pf.service.localPort ++ " already in use") ∧
    (pf.Start env).2.2 = [] := by
  unfold PortForward.Start
  rw [if_neg (by rintro (h | h) <;> [exact h1 h; exact h2 h]), if_pos hc]
  exact ⟨rfl, rfl, rfl, rfl⟩

/-- C4 witness: a stopped supervisor started while its port is held by
PID 4242. -/
theorem C4_conflict_preempts_launch_witness :
    let pf := NewPortForward c1Service "prod" "default" (-1) noConflict
    let env : StartEnv :=
      { conflict := { hasConflict := true, isKubectl := false,
                      processPID := 4242, processCommand := "nc -l 15432" },
        spawnOk := true, spawnErrMsg := "", spawnStderr := "" }
    (pf.Start env).1.status = .StatusError ∧
    (pf.Start env).1.manualStop = true ∧
    (pf.Start env).2.1 = .error "port 15432 already in use" ∧
    (pf.Start env).2.2 = [] := by
  intro pf env
  have h := C4_conflict_preempts_launch pf env (by decide) (by decide) rfl
  exact ⟨h.1, h.2.1, h.2.2.1, h.2.2.2⟩

/-- C7.  Calling `Start()` on a supervisor whose status is `Running` or
`Starting` — a `PortForward` or a `ProxyForward` alike — returns the
"already running" error, spawns nothing, and leaves the whole state record
untouched. -/
theorem C7_no_double_start :
    (∀ (pf : PortForward) (env : StartEnv),
      pf.status = .StatusRunning ∨ pf.status = .StatusStarting →
        pf.Start env = (pf, .error "port forward already running", [])) ∧
    (∀ (pf : ProxyForward) (manager : ProxyPodManager) (env : ProxyStartEnv),
      pf.status = .StatusRunning ∨ pf.status = .StatusStarting →
        pf.Start manager env = (pf, .error "proxy forward already running", [])) := by
  constructor
  · intro pf env h
    unfold PortForward.Start
    rw [if_pos h]
  · intro pf manager env h
    unfold ProxyForward.Start
    rw [if_pos h]

/-- C7 witness: the running supervisor `c1pf0` and a running proxy
forward both reject a second `Start()` with their state unchanged. -/
theorem C7_no_double_start_witness :
    c1pf0.Start cleanStartEnv =
      (c1pf0, .error "port forward already running", []) ∧
    (let pxf : ProxyForward :=
      { proxyService :=
          { name := "gcp-db", targetHost := "10.0.0.5", targetPort := 5432,
            localPort := 15433, selectedByDefault := false, context := "",
            nspace := "", maxRetries := none, sqlTapPort := none,
            sqlTapGrpcPort := none, sqlTapDriver := "", sqlTapDsnEnv := "" }
        status := .StatusRunning
        errorMessage := ""
        commandString := ""
        hasCancel := true
        context := "prod"
        nspace := "default"
        sqlTapManager := NewSqlTapManager false "" 0 0 0 }
    pxf.Start (NewProxyPodManager "kubefwd-proxy" "alpine/socat:latest" "default" "prod")
      { spawnOk := true, spawnErrMsg := "", spawnStderr := "",
        tapEnv := { spawnOk := true, spawnErrMsg := "", stderrText := "",
                    exitedImmediately := false } } =
      (pxf, .error "proxy forward already running", [])) := by
  constructor
  · exact C7_no_double_start.1 c1pf0 cleanStartEnv (Or.inl (by decide))
  · intro pxf
    exact C7_no_double_start.2 pxf _ _ (Or.inl rfl)

/-- Helper: a successful non-empty `CreatePodWithServices` leaves exactly
the Ready state with the fresh port assignment and the new service set. -/
theorem CreatePodWithServices_ok_state (env : PodEnv)
    (sel : List ProxyService) (pm : ProxyPodManager) (hne : sel ≠ [])
    (hok : (ProxyPodManager.CreatePodWithServices env sel pm).2.1 = .ok ()) :
    (ProxyPodManager.CreatePodWithServices env sel pm).1 =
      { pm with status := .ProxyPodStatusReady, currentServices := sel,
                podPorts := assignPodPorts sel, errorMessage := "" } := by
  rcases sel with _ | ⟨s, rest⟩
  · exact absurd rfl hne
  · rcases env with ⟨cres, rres⟩
    rcases cres with _ | retry | msg
    · rcases rres with m | u
      · simp [ProxyPodManager.CreatePodWithServices] at hok
      · rfl
    · rcases retry with m | u
      · simp [ProxyPodManager.CreatePodWithServices] at hok
      · rcases rres with m | u2
        · simp [ProxyPodManager.CreatePodWithServices] at hok
        · rfl
    · simp [ProxyPodManager.CreatePodWithServices] at hok

/-- Helper: a failed non-empty `CreatePodWithServices` leaves status
`Error`, the port map already rebuilt for the new selection, and the
active service set untouched. -/
theorem CreatePodWithServices_err_state (env : PodEnv)
    (sel : List ProxyService) (pm : ProxyPodManager) (hne : sel ≠ [])
    (herr : (ProxyPodManager.CreatePodWithServices env sel pm).2.1 ≠ .ok ()) :
    (ProxyPodManager.CreatePodWithServices env sel pm).1.status =
        .ProxyPodStatusError ∧
    (ProxyPodManager.CreatePodWithServices env sel pm).1.podPorts =
        assignPodPorts sel ∧
    (ProxyPodManager.CreatePodWithServices env sel pm).1.currentServices =
        pm.currentServices := by
  rcases sel with _ | ⟨s, rest⟩
  · exact absurd rfl hne
  · rcases env with ⟨cres, rres⟩
    rcases cres with _ | retry | msg
    · rcases rres with m | u
      · exact ⟨rfl, rfl, rfl⟩
      · exact absurd rfl herr
    · rcases retry with m | u
      · exact ⟨rfl, rfl, rfl⟩
      · rcases rres with m | u2
        · exact ⟨rfl, rfl, rfl⟩
        · exact absurd rfl herr
    · exact ⟨rfl, rfl, rfl⟩

/-- Helper: the dense allocation over a two-service selection with
distinct names. -/
theorem assignPodPorts_pair (x y : ProxyService) (h : x.name ≠ y.name) :
    assignPodPorts [x, y] = [(x.name, 10000), (y.name, 10001)] := by
  show mapInsert (mapInsert [] x.name (10000 + (0 : Int))) y.name
    (10000 + (1 : Int)) = _
  simp [mapInsert, h]

/-- C5.  Rebuilding the pod with `[A, B]` and then `[A, C]` (both calls
succeeding, all names distinct) leaves the manager `Ready` with active set
exactly `{A, C}`: `B`'s former relay port 10001 is gone from the port map,
and `A` and `C` carry the fresh dense allocation 10000 and 10001 in
selection order. -/
theorem C5_pod_rebuild_determinism (pm : ProxyPodManager)
    (A B C : ProxyService) (hAB : A.name ≠ B.name) (hAC : A.name ≠ C.name)
    (hBC : B.name ≠ C.name) (env1 env2 : PodEnv)
    (h1 : (ProxyPodManager.CreatePodWithServices env1 [A, B] pm).2.1 = .ok ())
    (h2 : (ProxyPodManager.CreatePodWithServices env2 [A, C]
      (ProxyPodManager.CreatePodWithServices env1 [A, B] pm).1).2.1 = .ok ()) :
    (ProxyPodManager.CreatePodWithServices env1 [A, B] pm).1.GetPodPort B.name =
        some 10001 ∧
    ((ProxyPodManager.CreatePodWithServices env2 [A, C]
        (ProxyPodManager.CreatePodWithServices env1 [A, B] pm).1).1.status =
        .ProxyPodStatusReady ∧
      (ProxyPodManager.CreatePodWithServices env2 [A, C]
        (ProxyPodManager.CreatePodWithServices env1 [A, B] pm).1).1.GetActiveServiceNames =
        [A.name, C.name] ∧
      (ProxyPodManager.CreatePodWithServices env2 [A, C]
        (ProxyPodManager.CreatePodWithServices env1 [A, B] pm).1).1.podPorts =
        [(A.name, 10000), (C.name, 10001)] ∧
      (ProxyPodManager.CreatePodWithServices env2 [A, C]
        (ProxyPodManager.CreatePodWithServices env1 [A, B] pm).1).1.GetPodPort A.name =
        some 10000 ∧
      (ProxyPodManager.CreatePodWithServices env2 [A, C]
        (ProxyPodManager.CreatePodWithServices env1 [A, B] pm).1).1.GetPodPort C.name =
        some 10001 ∧
      (ProxyPodManager.CreatePodWithServices env2 [A, C]
        (ProxyPodManager.CreatePodWithServices env1 [A, B] pm).1).1.GetPodPort B.name =
        none) := by
  have e1 := CreatePodWithServices_ok_state env1 [A, B] pm (by simp) h1
  have e2 := CreatePodWithServices_ok_state env2 [A, C] _ (by simp) h2
  rw [e2, assignPodPorts_pair A C hAC, e1, assignPodPorts_pair A B hAB]
  refine ⟨?_, rfl, rfl, rfl, ?_, ?_, ?_⟩
  · simp [ProxyPodManager.GetPodPort, mapLookup, hAB]
  · simp [ProxyPodManager.GetPodPort, mapLookup]
  · simp [ProxyPodManager.GetPodPort, mapLookup, hAC]
  · simp [ProxyPodManager.GetPodPort, mapLookup, hAB, Ne.symm hBC]

/-- C6.  An empty selection always deletes the pod (the single external
action is the deletion), resets the state to `NotCreated` with empty
service set and port map, and returns success. -/
theorem C6_empty_selection_deactivates (env : PodEnv) (pm : ProxyPodManager) :
    ProxyPodManager.CreatePodWithServices env [] pm =
      ({ pm with status := .ProxyPodStatusNotCreated, currentServices := [],
                 podPorts := [], errorMessage := "" }, .ok (), [.deletePod]) :=
  rfl

/-- C10.  `CreatePodWithServices` is not atomic on failure: after a
successful call with `prevSel`, a failing call with non-empty `newSel`
leaves status `Error`, the port map already rebuilt for `newSel`, and the
active service set still that of `prevSel`, so `GetPodPort` answers from
the new selection while `IsServiceActive` answers from the old one. -/
theorem C10_failure_not_atomic (pm : ProxyPodManager)
    (prevSel newSel : List ProxyService) (env1 env2 : PodEnv)
    (hprev : prevSel ≠ []) (hnew : newSel ≠ [])
    (h1 : (ProxyPodManager.CreatePodWithServices env1 prevSel pm).2.1 = .ok ())
    (h2 : (ProxyPodManager.CreatePodWithServices env2 newSel
      (ProxyPodManager.CreatePodWithServices env1 prevSel pm).1).2.1 ≠ .ok ()) :
    (ProxyPodManager.CreatePodWithServices env2 newSel
        (ProxyPodManager.CreatePodWithServices env1 prevSel pm).1).1.status =
      .ProxyPodStatusError ∧
    (ProxyPodManager.CreatePodWithServices env2 newSel
        (ProxyPodManager.CreatePodWithServices env1 prevSel pm).1).1.podPorts =
      assignPodPorts newSel ∧
    (ProxyPodManager.CreatePodWithServices env2 newSel
        (ProxyPodManager.CreatePodWithServices env1 prevSel pm).1).1.currentServices =
      prevSel ∧
    (∀ name,
      (ProxyPodManager.CreatePodWithServices env2 newSel
        (ProxyPodManager.CreatePodWithServices env1 prevSel pm).1).1.IsServiceActive
          name = prevSel.any (fun svc => svc.name = name)) ∧
    (∀ name,
      (ProxyPodManager.CreatePodWithServices env2 newSel
        (ProxyPodManager.CreatePodWithServices env1 prevSel pm).1).1.GetPodPort
          name = mapLookup (assignPodPorts newSel) name) := by
  have e1 := CreatePodWithServices_ok_state env1 prevSel pm hprev h1
  have e2 := CreatePodWithServices_err_state env2 newSel _ hnew h2
  have hcur : (ProxyPodManager.CreatePodWithServices env1 prevSel pm).1.currentServices
      = prevSel := by rw [e1]
  refine ⟨e2.1, e2.2.1, e2.2.2.trans hcur, fun name => ?_, fun name => ?_⟩
  · unfold ProxyPodManager.IsServiceActive
    rw [e2.2.2.trans hcur]
  · unfold ProxyPodManager.GetPodPort
    rw [e2.2.1]

/-! ## Fixtures for the pod-manager and inspector claims -/

/-- Proxy service fixture "svc-a". -/
def svcA : ProxyService :=
  { name := "svc-a", targetHost := "10.0.0.1", targetPort := 5432,
    localPort := 15001, selectedByDefault := false, context := "",
    nspace := "", maxRetries := none, sqlTapPort := none,
    sqlTapGrpcPort := none, sqlTapDriver := "", sqlTapDsnEnv := "" }

/-- Proxy service fixture "svc-b". -/
def svcB : ProxyService :=
  { svcA with name := "svc-b", targetHost := "10.0.0.2", localPort := 15002 }

/-- Proxy service fixture "svc-c". -/
def svcC : ProxyService :=
  { svcA with name := "svc-c", targetHost := "10.0.0.3", localPort := 15003 }

/-- A pod environment in which creation succeeds and the pod becomes
ready. -/
def podEnvOk : PodEnv := { createResult := .ok, readyResult := .ok () }

/-- A pod environment in which creation succeeds but readiness times
out. -/
def podEnvNotReady : PodEnv :=
  { createResult := .ok,
    readyResult := .error "timeout waiting for pod to become ready" }

/-- A freshly constructed manager. -/
def pmFresh : ProxyPodManager :=
  NewProxyPodManager "kubefwd-proxy" "alpine/socat:latest" "default" "prod"

/-- C5 witness: concrete rebuild `[svc-a, svc-b]` then `[svc-a, svc-c]`. -/
theorem C5_pod_rebuild_determinism_witness :
    (ProxyPodManager.CreatePodWithServices podEnvOk [svcA, svcC]
        (ProxyPodManager.CreatePodWithServices podEnvOk [svcA, svcB]
          pmFresh).1).1.GetActiveServiceNames = ["svc-a", "svc-c"] ∧
    (ProxyPodManager.CreatePodWithServices podEnvOk [svcA, svcC]
        (ProxyPodManager.CreatePodWithServices podEnvOk [svcA, svcB]
          pmFresh).1).1.GetPodPort "svc-a" = some 10000 ∧
    (ProxyPodManager.CreatePodWithServices podEnvOk [svcA, svcC]
        (ProxyPodManager.CreatePodWithServices podEnvOk [svcA, svcB]
          pmFresh).1).1.GetPodPort "svc-c" = some 10001 ∧
    (ProxyPodManager.CreatePodWithServices podEnvOk [svcA, svcC]
        (ProxyPodManager.CreatePodWithServices podEnvOk [svcA, svcB]
          pmFresh).1).1.GetPodPort "svc-b" = none :=
  have h := C5_pod_rebuild_determinism pmFresh svcA svcB svcC
    (by decide) (by decide) (by decide) podEnvOk podEnvOk
    (by decide) (by decide)
  ⟨h.2.2.1, h.2.2.2.2.1, h.2.2.2.2.2.1, h.2.2.2.2.2.2⟩

/-- C10 witness: a successful `[svc-a, svc-b]` build followed by a failing
`[svc-a, svc-c]` build leaves `GetPodPort` answering for inactive `svc-c`
and `IsServiceActive` still answering for port-less `svc-b`. -/
theorem C10_failure_not_atomic_witness :
    (ProxyPodManager.CreatePodWithServices podEnvNotReady [svcA, svcC]
        (ProxyPodManager.CreatePodWithServices podEnvOk [svcA, svcB]
          pmFresh).1).1.status = .ProxyPodStatusError ∧
    (ProxyPodManager.CreatePodWithServices podEnvNotReady [svcA, svcC]
        (ProxyPodManager.CreatePodWithServices podEnvOk [svcA, svcB]
          pmFresh).1).1.GetPodPort "svc-c" = some 10001 ∧
    (ProxyPodManager.CreatePodWithServices podEnvNotReady [svcA, svcC]
        (ProxyPodManager.CreatePodWithServices podEnvOk [svcA, svcB]
          pmFresh).1).1.IsServiceActive "svc-c" = false ∧
    (ProxyPodManager.CreatePodWithServices podEnvNotReady [svcA, svcC]
        (ProxyPodManager.CreatePodWithServices podEnvOk [svcA, svcB]
          pmFresh).1).1.IsServiceActive "svc-b" = true ∧
    (ProxyPodManager.CreatePodWithServices podEnvNotReady [svcA, svcC]
        (ProxyPodManager.CreatePodWithServices podEnvOk [svcA, svcB]
          pmFresh).1).1.GetPodPort "svc-b" = none :=
  have h := C10_failure_not_atomic pmFresh [svcA, svcB] [svcA, svcC]
    podEnvOk podEnvNotReady (by decide) (by decide) (by decide) (by decide)
  ⟨h.1,
    (h.2.2.2.2 "svc-c").trans (by decide),
    (h.2.2.2.1 "svc-c").trans (by decide),
    (h.2.2.2.1 "svc-b").trans (by decide),
    (h.2.2.2.2 "svc-b").trans (by decide)⟩

/-- An environment in which the lsof binary cannot be run at all. -/
def lsofDownEnv : LsofEnv :=
  { result := .execFailure "exec: lsof: executable file not found in PATH",
    processDetails := fun _ => "" }

/-- C8 counterexample.  The claim says that when lsof fails for a reason
other than "no process uses the port", the query "carries no error".  At
this concrete input (lsof binary unavailable) `GetPortUsage` does report
the port as not in use, but it returns a non-nil error wrapping the lsof
failure — the claim is false as stated. -/
theorem C8_counterexample_error_is_returned :
    (GetPortUsage lsofDownEnv).1.inUse = false ∧
    ¬(GetPortUsage lsofDownEnv).2 = none ∧
    (GetPortUsage lsofDownEnv).2 =
      some "failed to run lsof: exec: lsof: executable file not found in PATH" := by
  decide

/-- C8 amended.  When the lsof invocation inside `GetPortUsage` fails for
any reason other than exit code 1 ("no process uses the port"), the
returned info record still reports the port as not in use
(`InUse = false`, status free) — but the call returns a non-nil error
rather than carrying no error; only the exit-code-1 case is errorless.
A genuinely free port is still never blocked by an inspector outage:
`DetectPortConflict` decides `HasConflict` by the bind probe alone, so a
port that can be bound reports no conflict whatever lsof does. -/
theorem C8_amended_free_but_with_error (env : LsofEnv)
    (h : (∃ msg, env.result = .execFailure msg) ∨
      ∃ c, env.result = .exitError c ∧ c ≠ 1) :
    (GetPortUsage env).1.inUse = false ∧
    (GetPortUsage env).1.status = .PortStatusFree ∧
    (GetPortUsage env).2.isSome = true ∧
    ∀ (cenv : ConflictEnv), cenv.portAvailable = true →
      (DetectPortConflict cenv).hasConflict = false := by
  have hfree : ∀ (cenv : ConflictEnv), cenv.portAvailable = true →
      (DetectPortConflict cenv).hasConflict = false := by
    intro cenv hpa
    unfold DetectPortConflict
    rw [if_pos hpa]
    rfl
  obtain ⟨msg, hmsg⟩ | ⟨c, hc, hne⟩ := h
  · refine ⟨?_, ?_, ?_, hfree⟩ <;> simp [GetPortUsage, hmsg]
  · refine ⟨?_, ?_, ?_, hfree⟩ <;> simp [GetPortUsage, hc, hne]

/-- C8 witness: the amended statement evaluated at the unavailable-lsof
environment and a bindable port. -/
theorem C8_amended_free_but_with_error_witness :
    (GetPortUsage lsofDownEnv).1.inUse = false ∧
    (GetPortUsage lsofDownEnv).2.isSome = true ∧
    (DetectPortConflict
      { portAvailable := true, lsofOutput := none,
        psOutput := fun _ => none }).hasConflict = false :=
  have h := C8_amended_free_but_with_error lsofDownEnv (Or.inl ⟨_, rfl⟩)
  ⟨h.1, h.2.2.1, h.2.2.2 _ rfl⟩

/-- Helper: the defaulting block leaves `maxRetries` untouched except for
replacing a zero with `-1`. -/
theorem applyConfigDefaults_maxRetries (c : Config) :
    (applyConfigDefaults c).maxRetries =
      if c.maxRetries = 0 then -1 else c.maxRetries := by
  unfold applyConfigDefaults
  by_cases h : c.maxRetries = 0 <;>
    simp [h, apply_ite Config.maxRetries]

/-- C9.  A global `max_retries` of 0 — which is also what an absent field
unmarshals to — is rewritten to `-1` (infinite) by `LoadConfig`, so a
global retry limit of zero cannot be expressed; a per-service override of
`0`, stored as an optional pointer, survives and `GetMaxRetries` returns
`0` for it. -/
theorem C9_zero_global_max_retries_means_infinite (parsed cfg : Config)
    (hzero : parsed.maxRetries = 0)
    (hok : LoadConfig parsed = .ok cfg) :
    cfg.maxRetries = -1 ∧
    ∀ (s : Service) (g : Int), s.maxRetries = some 0 →
      s.GetMaxRetries g = 0 := by
  constructor
  · simp only [LoadConfig] at hok
    set config := applyConfigDefaults parsed with hconfig
    by_cases h1 : config.clusterContext = ""
    · rw [if_pos h1] at hok; exact Except.noConfusion hok
    rw [if_neg h1] at hok
    by_cases h2 : config.nspace = ""
    · rw [if_pos h2] at hok; exact Except.noConfusion hok
    rw [if_neg h2] at hok
    by_cases h3 : config.services.isEmpty = true ∧
      config.proxyServices.isEmpty = true
    · rw [if_pos h3] at hok; exact Except.noConfusion hok
    rw [if_neg h3] at hok
    rcases hv : validateServices 0 config.services with e | u
    all_goals rw [hv] at hok
    · exact Except.noConfusion hok
    rcases hp : validateProxyServices 0 config.proxyServices with e | pxs
    all_goals rw [hp] at hok
    · exact Except.noConfusion hok
    rw [← Except.ok.inj hok]
    show config.maxRetries = -1
    rw [hconfig, applyConfigDefaults_maxRetries, if_pos hzero]
  · intro s g hs
    unfold Service.GetMaxRetries
    rw [hs]

/-- Config fixture: one Direct service with a per-service
`max_retries: 0`. -/
def c9Service : Service :=
  { name := "api", serviceName := "api-svc", remotePort := 8080,
    localPort := 18080, selectedByDefault := true, context := "",
    nspace := "", maxRetries := some 0 }

/-- Parsed config fixture with global `max_retries` 0 (or absent). -/
def c9Parsed : Config :=
  { clusterContext := "prod", clusterName := "", nspace := "default",
    maxRetries := 0, alternativeContexts := [], presets := [],
    services := [c9Service], proxyPodName := "", proxyPodImage := "",
    proxyPodContext := "", proxyPodNamespace := "", proxyServices := [] }

/-- The record `LoadConfig` produces for `c9Parsed`. -/
def c9Loaded : Config :=
  { c9Parsed with maxRetries := -1, proxyPodName := "kubefwd-proxy",
                  proxyPodImage := "alpine/socat:latest",
                  proxyPodContext := "prod", proxyPodNamespace := "default" }

/-- C9 witness: the concrete config loads successfully, its global limit
becomes `-1`, and the per-service zero is preserved. -/
theorem C9_zero_global_max_retries_witness :
    c9Parsed.maxRetries = 0 ∧ LoadConfig c9Parsed = .ok c9Loaded ∧
    c9Loaded.maxRetries = -1 ∧ c9Service.GetMaxRetries (-1) = 0 :=
  have hload : LoadConfig c9Parsed = .ok c9Loaded := by decide
  have h := C9_zero_global_max_retries_means_infinite c9Parsed c9Loaded
    rfl hload
  ⟨rfl, hload, h.1, h.2 c9Service (-1) rfl⟩

end Kubefwd
